import Mathlib

/-
Verification development for the SMART AR-shopping ML service
(smart-ar-shopping/ml-service/processors/size_recommendation.py).

The Python code is shallowly embedded below.  Python floats are modelled as
exact rationals; the only irrational operation, the Euclidean distance used
by the body-measurement estimator, is modelled over the reals with Real.sqrt
of a rational squared distance.  Python dictionaries with a fixed key set are
modelled as structures (optional keys become Option fields); dictionaries
with caller-defined keys (size charts) are association lists with distinct
keys.  Code that can raise a Python exception is modelled with Except.
-/

/-- Python runtime errors that the embedded code can raise. -/
inductive PyError where
  | indexError
  | zeroDivisionError
deriving DecidableEq, Repr

/-- Truncation of a rational toward zero, the semantics of Python int(x)
applied to a float.  Int.tdiv is T-division, i.e. truncation toward zero. -/
def pyInt (q : ℚ) : ℤ :=
  q.num.tdiv (q.den : ℤ)

/-- Result of joining a list of strings with separator sep, as Python
str.join. -/
def joinWith (sep : String) (parts : List String) : String :=
  String.intercalate sep parts

/-- Substring test, the semantics of the Python expression needle in hay
on strings. -/
def strContains (hay needle : String) : Bool :=
  (List.range (hay.length + 1)).any (fun i => needle.isPrefixOf (hay.drop i))

/- ------------------------------------------------------------------
SizeRecommendationEngine: data model
------------------------------------------------------------------ -/

/-- The body_measurements dictionary as read by the size-fit functions.
Keys that the code accesses conditionally or with defaults are Option
fields (size_recommendation.py lines 162, 174, 186, 204, 237, 276). -/
structure BodyMeasurements where
  chest_circumference : Option ℚ := none
  waist_circumference : Option ℚ := none
  hip_circumference : Option ℚ := none
  confidence : Option ℚ := none
deriving DecidableEq, Repr

/-- One entry of a product size chart (the per-size measurements dict);
the code only ever reads the chest, waist and hip keys. -/
structure SizeEntry where
  chest : Option ℚ := none
  waist : Option ℚ := none
  hip : Option ℚ := none
deriving DecidableEq, Repr

/-- One entry of the tolerances table (size_recommendation.py lines
146-152); only the chest, waist and hip keys are ever read (each with
default 5), so the other keys of the Python dicts are not represented. -/
structure ToleranceEntry where
  chest : Option ℚ := none
  waist : Option ℚ := none
  hip : Option ℚ := none
deriving DecidableEq, Repr

/-- The tolerances table lookup tolerances.get(product_type,
tolerances[default]) (size_recommendation.py lines 146-154). -/
def tolerances (product_type : String) : ToleranceEntry :=
  match product_type with
  | "shirt" => { chest := some 5, waist := some 8 }
  | "pants" => { waist := some 3, hip := some 5 }
  | "dress" => { chest := some 4, waist := some 6, hip := some 6 }
  | "jacket" => { chest := some 6 }
  | _ => { chest := some 5, waist := some 5, hip := some 5 }

/-- Per-measurement fit entry stored in fit_scores (size_recommendation.py
lines 165-169).  The difference field stores the absolute difference, as
the code does. -/
structure FitDetail where
  score : ℚ
  difference : ℚ
  fit : String
deriving DecidableEq, Repr

/-- The fit_scores dictionary of one size: keys chest, waist, hip are
added conditionally (size_recommendation.py lines 162-195). -/
structure FitScores where
  chest : Option FitDetail := none
  waist : Option FitDetail := none
  hip : Option FitDetail := none
deriving DecidableEq, Repr

/-- One element of the recommendations list (size_recommendation.py
lines 200-205). -/
structure Recommendation where
  size : String
  overall_score : ℚ
  fit_scores : FitScores
  confidence : ℚ
deriving DecidableEq, Repr

/-- One element of the alternative_sizes output list
(size_recommendation.py lines 219-220). -/
structure AltSize where
  size : String
  score : ℚ
deriving DecidableEq, Repr

/-- The dictionary returned by _rule_based_size_recommendation
(size_recommendation.py lines 214-222). -/
structure SizeRecommendationResult where
  recommended_size : String
  fit_score : ℚ
  confidence : ℚ
  fit_details : FitScores
  alternative_sizes : List AltSize
  measurement_quality : String
deriving DecidableEq, Repr

/- ------------------------------------------------------------------
SizeRecommendationEngine: rule-based size recommendation
------------------------------------------------------------------ -/

/-- The per-measurement score expression max(0, 100 - (diff / tol) * 50)
(size_recommendation.py lines 164, 176, 188). -/
def measurement_score (difference tolerance : ℚ) : ℚ :=
  max 0 (100 - difference / tolerance * 50)

/-- _get_fit_description (size_recommendation.py lines 224-233). -/
def get_fit_description (difference tolerance : ℚ) : String :=
  if difference < tolerance * 0.5 then "Perfect fit"
  else if difference < tolerance then "Good fit"
  else if difference < tolerance * 1.5 then
    (if difference > 0 then "Slightly loose" else "Slightly tight")
  else
    (if difference > 0 then "Too loose" else "Too tight")

/-- _assess_measurement_quality (size_recommendation.py lines 235-246). -/
def assess_measurement_quality (measurements : BodyMeasurements) : String :=
  let confidence := measurements.confidence.getD 0
  if confidence > 0.9 then "Excellent"
  else if confidence > 0.8 then "Good"
  else if confidence > 0.7 then "Fair"
  else "Poor - Please ensure full body is visible"

/-- The body of the per-size loop of _rule_based_size_recommendation
(size_recommendation.py lines 156-205): per-measurement fit scores with
weights 0.4 / 0.3 / 0.3, overall score total_score / total_weight (0 when
no measurement is present), confidence = body confidence (default 0.8)
times overall_score / 100. -/
def score_size (body : BodyMeasurements) (tol : ToleranceEntry)
    (size : String) (e : SizeEntry) : Recommendation :=
  let chestDetail : Option FitDetail :=
    match e.chest, body.chest_circumference with
    | some c, some b =>
      let d := |b - c|
      some ⟨measurement_score d (tol.chest.getD 5), d,
            get_fit_description d (tol.chest.getD 5)⟩
    | _, _ => none
  let waistDetail : Option FitDetail :=
    match e.waist, body.waist_circumference with
    | some c, some b =>
      let d := |b - c|
      some ⟨measurement_score d (tol.waist.getD 5), d,
            get_fit_description d (tol.waist.getD 5)⟩
    | _, _ => none
  let hipDetail : Option FitDetail :=
    match e.hip, body.hip_circumference with
    | some c, some b =>
      let d := |b - c|
      some ⟨measurement_score d (tol.hip.getD 5), d,
            get_fit_description d (tol.hip.getD 5)⟩
    | _, _ => none
  let total_score :=
    (match chestDetail with | some f => f.score * 0.4 | none => 0) +
    (match waistDetail with | some f => f.score * 0.3 | none => 0) +
    (match hipDetail with | some f => f.score * 0.3 | none => 0)
  let total_weight :=
    (if chestDetail.isSome then (0.4 : ℚ) else 0) +
    (if waistDetail.isSome then (0.3 : ℚ) else 0) +
    (if hipDetail.isSome then (0.3 : ℚ) else 0)
  let overall_score := if total_weight > 0 then total_score / total_weight else 0
  { size := size
    overall_score := overall_score
    fit_scores := ⟨chestDetail, waistDetail, hipDetail⟩
    confidence := body.confidence.getD 0.8 * (overall_score / 100) }

/-- Descending-by-overall-score ordering used by the Python call
recommendations.sort(key=lambda x: x[overall_score-key], reverse=True)
(size_recommendation.py line 208). -/
def recGE (a b : Recommendation) : Prop :=
  b.overall_score ≤ a.overall_score

instance : DecidableRel recGE :=
  fun a b => inferInstanceAs (Decidable (b.overall_score ≤ a.overall_score))

instance : IsTotal Recommendation recGE :=
  ⟨fun a b => le_total b.overall_score a.overall_score⟩

instance : IsTrans Recommendation recGE :=
  ⟨fun _ _ _ h1 h2 => le_trans h2 h1⟩

/-- The in-place stable descending sort of the recommendations list
(size_recommendation.py line 208).  Python list.sort is stable, and a
stable sort is uniquely determined by its comparator, so the structurally
recursive insertion sort computes the same list. -/
def rank_recommendations (recs : List Recommendation) : List Recommendation :=
  recs.insertionSort recGE

/-- _rule_based_size_recommendation (size_recommendation.py lines
137-222).  The product size chart is an association list with the
iteration order of the Python dict. -/
def rule_based_size_recommendation (body : BodyMeasurements)
    (product_measurements : List (String × SizeEntry))
    (product_type : String) : SizeRecommendationResult :=
  let product_tolerance := tolerances product_type
  match rank_recommendations
      (product_measurements.map
        (fun p => score_size body product_tolerance p.1 p.2)) with
  | [] =>
    { recommended_size := "M"
      fit_score := 0
      confidence := 0
      fit_details := ⟨none, none, none⟩
      alternative_sizes := []
      measurement_quality := assess_measurement_quality body }
  | best :: rest =>
    let alternative_sizes := (rest.filter (fun r => 70 < r.overall_score)).take 2
    { recommended_size := best.size
      fit_score := best.overall_score
      confidence := best.confidence
      fit_details := best.fit_scores
      alternative_sizes := alternative_sizes.map (fun r => ⟨r.size, r.overall_score⟩)
      measurement_quality := assess_measurement_quality body }

/- ------------------------------------------------------------------
SizeRecommendationEngine: virtual fit
------------------------------------------------------------------ -/

/-- Material properties dictionary (size_recommendation.py lines 307-331). -/
structure MaterialProperties where
  stretch_factor : ℚ
  breathability : ℚ
  thickness : ℚ
  drape : ℚ
deriving DecidableEq, Repr

/-- _estimate_material_properties (size_recommendation.py lines 307-331):
substring matching over the lower-cased space-joined material list. -/
def estimate_material_properties (materials : List String) : MaterialProperties :=
  let material_text := (joinWith (" ") materials).toLower
  let stretch_factor : ℚ :=
    if ["spandex", "elastane", "lycra", "stretch"].any
        (fun w => strContains material_text w) then 0.15
    else if strContains material_text ("cotton")
        && strContains material_text ("stretch") then 0.08
    else 0
  let breathability : ℚ :=
    if ["cotton", "linen", "bamboo"].any (fun w => strContains material_text w)
      then 0.8
    else if ["polyester", "nylon"].any (fun w => strContains material_text w)
      then 0.4
    else 0.5
  { stretch_factor := stretch_factor
    breathability := breathability
    thickness := 0.5
    drape := 0.5 }

/-- One element of the problem_areas list (size_recommendation.py lines
278-289). -/
structure ProblemArea where
  area : String
  issue : String
  severity : ℚ
deriving DecidableEq, Repr

/-- One element of the stretch_areas list (size_recommendation.py lines
354-365); excess is only present in the out-of-limits case. -/
structure StretchArea where
  area : String
  stretch_percentage : ℚ
  within_limits : Bool
  excess : Option ℚ := none
deriving DecidableEq, Repr

/-- The visual_adjustments dictionary: the only key the code ever adds is
chest_stretch (size_recommendation.py line 283). -/
structure VisualAdjustments where
  chest_stretch : Option ℚ := none
deriving DecidableEq, Repr

/-- The fit_analysis dictionary returned by calculate_virtual_fit
(size_recommendation.py lines 265-272 and mutations thereafter). -/
structure FitAnalysis where
  overall_fit : String
  problem_areas : List ProblemArea
  stretch_areas : List StretchArea
  comfort_score : ℤ
  movement_restriction : String
  visual_adjustments : VisualAdjustments
deriving DecidableEq, Repr

/-- The product_data dictionary as read by calculate_virtual_fit:
measurements is the size chart, materials the material list
(size_recommendation.py lines 259-263). -/
structure ProductData where
  measurements : List (String × SizeEntry)
  materials : List String
deriving DecidableEq, Repr

/-- Python dict lookup in a size chart modelled as an association list
(keys of a Python dict are unique). -/
def lookupSize (chart : List (String × SizeEntry)) (size : String) :
    Option SizeEntry :=
  (chart.find? (fun p => p.1 == size)).map Prod.snd

/-- _calculate_stretch_areas (size_recommendation.py lines 333-367). -/
def calculate_stretch_areas (body : BodyMeasurements) (e : SizeEntry)
    (mp : MaterialProperties) : List StretchArea :=
  let check : Option ℚ → Option ℚ → String → Option StretchArea :=
    fun bodyVal chartVal key =>
      match bodyVal, chartVal with
      | some b, some c =>
        let diff := b - c
        if 0 < diff ∧ diff ≤ c * mp.stretch_factor then
          some ⟨key, diff / c * 100, true, none⟩
        else if c * mp.stretch_factor < diff then
          some ⟨key, mp.stretch_factor * 100, false,
                some (diff - c * mp.stretch_factor)⟩
        else none
      | _, _ => none
  [check body.chest_circumference e.chest ("chest"),
   check body.waist_circumference e.waist ("waist"),
   check body.hip_circumference e.hip ("hip")].reduceOption

/-- calculate_virtual_fit (size_recommendation.py lines 248-305).  The
error branch models the returned dictionary containing only an error key
(line 260).  The initial comfort_score of 85 (line 269) survives exactly
when the comfort_factors list, one factor 1 - severity * 0.3 per problem
area, is empty (lines 297-303); otherwise it is replaced by the truncated
mean of the factors times 100. -/
def calculate_virtual_fit (body_measurements : BodyMeasurements)
    (product_data : ProductData) (selected_size : String) :
    Except String FitAnalysis :=
  match lookupSize product_data.measurements selected_size with
  | none => .error ("Size not found")
  | some size_measurements =>
    let material_properties := estimate_material_properties product_data.materials
    let chestResult : List ProblemArea × VisualAdjustments :=
      match size_measurements.chest with
      | none => ([], ⟨none⟩)
      | some c =>
        let chest_diff := body_measurements.chest_circumference.getD 0 - c
        if chest_diff > 5 then
          ([⟨"chest", "too_tight", min (chest_diff / 10) 1⟩],
           ⟨some (chest_diff / 100)⟩)
        else if chest_diff < -10 then
          ([⟨"chest", "too_loose", min (|chest_diff| / 15) 1⟩], ⟨none⟩)
        else ([], ⟨none⟩)
    let problem_areas := chestResult.1
    let stretch_areas :=
      if material_properties.stretch_factor > 0 then
        calculate_stretch_areas body_measurements size_measurements
          material_properties
      else []
    let comfort_factors := problem_areas.map (fun a => 1 - a.severity * 0.3)
    let comfort_score : ℤ :=
      if comfort_factors.isEmpty then 85
      else pyInt (comfort_factors.sum / (comfort_factors.length : ℚ) * 100)
    .ok
      { overall_fit := "good"
        problem_areas := problem_areas
        stretch_areas := stretch_areas
        comfort_score := comfort_score
        movement_restriction := "minimal"
        visual_adjustments := chestResult.2 }

/- ------------------------------------------------------------------
FurniturePlacementEngine: data model
------------------------------------------------------------------ -/

/-- A detected plane: normal defaults to (0,0,0) when the key is absent
(size_recommendation.py lines 487, 607); boundary is an optional list of
3D points (line 494). -/
structure Plane where
  normal : ℚ × ℚ × ℚ := (0, 0, 0)
  boundary : Option (List (ℚ × ℚ × ℚ)) := none
deriving DecidableEq, Repr

/-- One available space (size_recommendation.py lines 520-524). -/
structure Space where
  center : ℚ × ℚ × ℚ
  size : ℚ × ℚ
  shape : String
deriving DecidableEq, Repr

/-- The lighting dictionary (size_recommendation.py lines 596-600). -/
structure Lighting where
  intensity : ℚ
  direction : ℚ × ℚ × ℚ
  color_temperature : ℚ
deriving DecidableEq, Repr

/-- The room_analysis dictionary (size_recommendation.py lines 392-399). -/
structure RoomAnalysis where
  floor_area : ℚ
  available_spaces : List Space
  walls : List Plane
  obstacles : List Plane
  lighting : Lighting
  recommended_positions : List (ℚ × ℚ × ℚ)
deriving DecidableEq, Repr

/-- The furniture_dimensions input dictionary: width, height, depth in
inches, each read with a default (size_recommendation.py lines 438-442). -/
structure FurnitureDimensions where
  width : Option ℚ := none
  height : Option ℚ := none
  depth : Option ℚ := none
deriving DecidableEq, Repr

/-- The furniture_size dictionary in meters (size_recommendation.py
lines 438-442). -/
structure FurnitureSize where
  width : ℚ
  height : ℚ
  depth : ℚ
deriving DecidableEq, Repr

/-- One placement candidate (size_recommendation.py lines 447-460). -/
structure Placement where
  position : ℚ × ℚ × ℚ
  rotation : ℚ
  scale : ℚ
  confidence : ℚ
  clearance : ℚ
  lighting_quality : String
deriving DecidableEq, Repr

/-- The dictionary returned by calculate_furniture_placement
(size_recommendation.py lines 474-481). -/
structure PlacementResult where
  recommended_placements : List Placement
  furniture_fits : Bool
  warnings : List String
  room_compatibility_score : ℚ
deriving DecidableEq, Repr

/- ------------------------------------------------------------------
FurniturePlacementEngine: room analysis
------------------------------------------------------------------ -/

/-- _find_floor_plane (size_recommendation.py lines 483-490): the first
plane whose normal has y-component greater than 0.9. -/
def find_floor_plane (planes : List Plane) : Option Plane :=
  planes.find? (fun p => 0.9 < p.normal.2.1)

/-- _calculate_floor_area (size_recommendation.py lines 492-503): the
shoelace polygon area over the x and z coordinates of the boundary, or 0
when the boundary key is absent. -/
def calculate_floor_area (floor_plane : Plane) : ℚ :=
  match floor_plane.boundary with
  | some points =>
    let n := points.length
    let area := ∑ i ∈ Finset.range n,
      ((points.getD i (0, 0, 0)).1 * (points.getD ((i + 1) % n) (0, 0, 0)).2.2 -
       (points.getD ((i + 1) % n) (0, 0, 0)).1 * (points.getD i (0, 0, 0)).2.2)
    |area| / 2
  | none => 0

/-- The single mock space appended by _find_available_spaces
(size_recommendation.py lines 519-524). -/
def mockSpace : Space :=
  { center := (0, 0, -2), size := (3, 3), shape := "rectangle" }

/-- _find_available_spaces (size_recommendation.py lines 505-526): a mock
implementation returning one fixed 3 by 3 meter space, independent of its
arguments. -/
def find_available_spaces (_floor_plane : Plane) (_depth_map : List ℚ)
    (_camera_intrinsics : Unit) : List Space :=
  [mockSpace]

/-- _detect_walls (size_recommendation.py lines 602-612): planes whose
normal has absolute y-component below 0.1. -/
def detect_walls (planes : List Plane) (_floor_plane : Option Plane) :
    List Plane :=
  planes.filter (fun p => |p.normal.2.1| < 0.1)

/-- _detect_obstacles (size_recommendation.py lines 614-618): stub
returning the empty list. -/
def detect_obstacles (_depth_map : List ℚ) (_floor_plane : Option Plane) :
    List Plane :=
  []

/-- _estimate_lighting (size_recommendation.py lines 591-600).  The depth
map is modelled as the flat list of its scalar entries; np.mean is
sum / length.  (For an empty depth map numpy yields NaN with a warning
rather than raising; here the rational division by zero yields 0.  No
claim depends on the lighting of an empty depth map.) -/
def estimate_lighting (depth_map : List ℚ) : Lighting :=
  let brightness := depth_map.sum / (depth_map.length : ℚ)
  { intensity := brightness / 255
    direction := (0, -1, 0)
    color_temperature := 5000 }

/-- analyze_room_space (size_recommendation.py lines 376-417).  The
camera intrinsics are opaque to this stage and modelled as Unit. -/
def analyze_room_space (depth_map : List ℚ) (camera_intrinsics : Unit)
    (detected_planes : List Plane) : RoomAnalysis :=
  let floor_plane := find_floor_plane detected_planes
  { floor_area :=
      match floor_plane with
      | some fp => calculate_floor_area fp
      | none => 0
    available_spaces :=
      match floor_plane with
      | some fp => find_available_spaces fp depth_map camera_intrinsics
      | none => []
    walls := detect_walls detected_planes floor_plane
    obstacles := detect_obstacles depth_map floor_plane
    lighting := estimate_lighting depth_map
    recommended_positions := [] }

/- ------------------------------------------------------------------
FurniturePlacementEngine: furniture placement
------------------------------------------------------------------ -/

/-- _can_fit_furniture (size_recommendation.py lines 528-538). -/
def can_fit_furniture (space : Space) (furniture_size : FurnitureSize) : Prop :=
  (furniture_size.width ≤ space.size.1 ∧ furniture_size.depth ≤ space.size.2) ∨
  (furniture_size.depth ≤ space.size.1 ∧ furniture_size.width ≤ space.size.2)

instance (space : Space) (fs : FurnitureSize) :
    Decidable (can_fit_furniture space fs) :=
  inferInstanceAs (Decidable (_ ∨ _))

/-- _distance_to_wall (size_recommendation.py lines 666-669): stub. -/
def distance_to_wall (_position : ℚ × ℚ × ℚ) (_wall : Plane) : ℚ :=
  1

/-- _angle_away_from_wall (size_recommendation.py lines 671-674): stub. -/
def angle_away_from_wall (_position : ℚ × ℚ × ℚ) (_wall : Plane) : ℚ :=
  0

/-- _angle_along_wall (size_recommendation.py lines 676-679): stub. -/
def angle_along_wall (_position : ℚ × ℚ × ℚ) (_wall : Plane) : ℚ :=
  0

/-- _calculate_optimal_rotation (size_recommendation.py lines 540-563).
Python min with key over the constant stub distance keeps the first
wall. -/
def calculate_optimal_rotation (space : Space) (_furniture_size : FurnitureSize)
    (furniture_type : String) (walls : List Plane) : ℚ :=
  if furniture_type = "sofa" ∧ walls ≠ [] then
    angle_away_from_wall space.center (walls.headD {})
  else if furniture_type = "table" then 0
  else if furniture_type = "tv_stand" ∧ walls ≠ [] then
    angle_along_wall space.center (walls.headD {})
  else 0

/-- _calculate_placement_confidence (size_recommendation.py lines
565-589).  The division by the space area raises ZeroDivisionError when
that area is zero. -/
def calculate_placement_confidence (space : Space)
    (furniture_size : FurnitureSize) (furniture_type : String) :
    Except PyError ℚ :=
  let space_size := space.size
  if space_size.1 * space_size.2 = 0 then .error .zeroDivisionError
  else
    let sizeFrac := furniture_size.width * furniture_size.depth /
      (space_size.1 * space_size.2)
    let c1 : ℚ := if sizeFrac > 0.8 then 0.7
      else if sizeFrac < 0.2 then 0.8
      else 1
    let c2 : ℚ :=
      if furniture_type = "sofa" ∧ space_size.1 < furniture_size.width + 1
      then 0.6 else 1
    .ok (c1 * c2)

/-- _calculate_clearance (size_recommendation.py lines 620-627). -/
def calculate_clearance (space : Space) (furniture_size : FurnitureSize) : ℚ :=
  min ((space.size.1 - furniture_size.width) / 2)
      ((space.size.2 - furniture_size.depth) / 2)

/-- _assess_position_lighting (size_recommendation.py lines 629-636). -/
def assess_position_lighting (_position : ℚ × ℚ × ℚ) (lighting : Lighting) :
    String :=
  if lighting.intensity > 0.7 then "Good"
  else if lighting.intensity > 0.4 then "Moderate"
  else "Low"

/-- _calculate_room_compatibility (size_recommendation.py lines 638-664).
With a nonempty available_spaces list the code divides the furniture
footprint area by the floor area, raising ZeroDivisionError when the
floor area is zero.  (The Python default of 10 in the floor_area lookup
is unreachable here because analyze_room_space always sets the key.) -/
def calculate_room_compatibility (room_analysis : RoomAnalysis)
    (furniture_size : FurnitureSize) (furniture_type : String) :
    Except PyError ℚ :=
  if room_analysis.available_spaces = [] then .ok 0
  else
    let furniture_area := furniture_size.width * furniture_size.depth
    let room_area := room_analysis.floor_area
    if room_area = 0 then .error .zeroDivisionError
    else
      let areaFrac := furniture_area / room_area
      let score : ℚ := if areaFrac > 0.3 then 0.7
        else if areaFrac < 0.05 then 0.8
        else 1
      .ok (if furniture_type = "sofa" ∧ room_analysis.walls = []
           then score * 0.8 else score)

/-- The placement-building loop of calculate_furniture_placement
(size_recommendation.py lines 445-462): spaces that cannot fit the
furniture are skipped; for the rest a placement candidate is built, whose
confidence computation may raise. -/
def build_placements (room_analysis : RoomAnalysis)
    (furniture_size : FurnitureSize) (furniture_type : String) :
    List Space → Except PyError (List Placement)
  | [] => .ok []
  | space :: rest =>
    if can_fit_furniture space furniture_size then
      match calculate_placement_confidence space furniture_size furniture_type,
            build_placements room_analysis furniture_size furniture_type rest with
      | .error e, _ => .error e
      | .ok _, .error e => .error e
      | .ok conf, .ok tail =>
        .ok ({ position := space.center
               rotation := calculate_optimal_rotation space furniture_size
                 furniture_type room_analysis.walls
               scale := 1
               confidence := conf
               clearance := calculate_clearance space furniture_size
               lighting_quality := assess_position_lighting space.center
                 room_analysis.lighting } :: tail)
    else build_placements room_analysis furniture_size furniture_type rest

/-- Descending-by-confidence ordering of the placements sort
(size_recommendation.py line 465). -/
def plGE (a b : Placement) : Prop :=
  b.confidence ≤ a.confidence

instance : DecidableRel plGE :=
  fun a b => inferInstanceAs (Decidable (b.confidence ≤ a.confidence))

instance : IsTotal Placement plGE :=
  ⟨fun a b => le_total b.confidence a.confidence⟩

instance : IsTrans Placement plGE :=
  ⟨fun _ _ _ h1 h2 => le_trans h2 h1⟩

/-- calculate_furniture_placement (size_recommendation.py lines 419-481).
Furniture dimensions are converted from inches (defaults 36, 30, 36) to
meters with factor 0.0254.  The stable in-place descending sort by
confidence is the insertion sort; warnings are an if/elif, so at most one
is emitted. -/
def calculate_furniture_placement (room_analysis : RoomAnalysis)
    (furniture_dimensions : FurnitureDimensions) (furniture_type : String) :
    Except PyError PlacementResult :=
  let furniture_size : FurnitureSize :=
    { width := furniture_dimensions.width.getD 36 * 0.0254
      height := furniture_dimensions.height.getD 30 * 0.0254
      depth := furniture_dimensions.depth.getD 36 * 0.0254 }
  match build_placements room_analysis furniture_size furniture_type
      room_analysis.available_spaces with
  | .error e => .error e
  | .ok placements =>
    let sorted := placements.insertionSort plGE
    let warnings : List String :=
      match sorted with
      | [] => ["No suitable space found for this furniture"]
      | p :: _ =>
        if p.clearance < 0.5 then ["Limited walking space around furniture"]
        else []
    match calculate_room_compatibility room_analysis furniture_size
        furniture_type with
    | .error e => .error e
    | .ok compat =>
      .ok
        { recommended_placements := sorted.take 3
          furniture_fits := decide (0 < sorted.length)
          warnings := warnings
          room_compatibility_score := compat }

/- ------------------------------------------------------------------
SizeRecommendationEngine: body measurements from pose landmarks
------------------------------------------------------------------ -/

/-- One pose landmark: x and y are required, z defaults to 0 and
visibility to 1.0 via dict.get (size_recommendation.py lines 54-56,
111). -/
structure Landmark where
  x : ℚ
  y : ℚ
  z : Option ℚ := none
  visibility : Option ℚ := none
deriving DecidableEq, Repr

instance : Inhabited Landmark :=
  ⟨⟨0, 0, none, none⟩⟩

/-- Denormalization of a landmark to pixel space (size_recommendation.py
lines 52-57): x * width, y * height, z * 100. -/
def toPixel (dims : ℚ × ℚ) (lm : Landmark) : ℚ × ℚ × ℚ :=
  (lm.x * dims.1, lm.y * dims.2, lm.z.getD 0 * 100)

/-- Squared planar Euclidean distance between two pixel points; the code
always projects to the first two coordinates before measuring. -/
def sqDist (p q : ℚ × ℚ) : ℚ :=
  (p.1 - q.1) ^ 2 + (p.2 - q.2) ^ 2

/-- scipy distance.euclidean on the planar projections, modelled exactly
over the reals. -/
noncomputable def euclidean (p q : ℚ × ℚ) : ℝ :=
  Real.sqrt (sqDist p q)

/-- The measurements dictionary returned by calculate_body_measurements
(size_recommendation.py lines 101-112).  All length measurements are
reals (they involve square roots); the confidence is the rational mean
of the landmark visibilities. -/
structure Measurements where
  height : ℝ
  shoulder_width : ℝ
  chest_circumference : ℝ
  waist_circumference : ℝ
  hip_circumference : ℝ
  torso_length : ℝ
  arm_length : ℝ
  inseam : ℝ
  confidence : ℚ

/-- The pixel-space landmark list (size_recommendation.py lines 52-59). -/
def pixel_landmarks (pose_landmarks : List Landmark) (dims : ℚ × ℚ) :
    List (ℚ × ℚ × ℚ) :=
  pose_landmarks.map (toPixel dims)

/-- Planar projection of the pixel landmark at an index, the [:2] slices
of size_recommendation.py. -/
def planar (landmarks_px : List (ℚ × ℚ × ℚ)) (i : ℕ) : ℚ × ℚ :=
  ((landmarks_px.getD i (0, 0, 0)).1, (landmarks_px.getD i (0, 0, 0)).2.1)

/-- The planar ankle midpoint (size_recommendation.py line 73, projected
to the plane as line 74 does); left_ankle = index 15, right_ankle = 16. -/
def ankle_midpoint (landmarks_px : List (ℚ × ℚ × ℚ)) : ℚ × ℚ :=
  (((planar landmarks_px 15).1 + (planar landmarks_px 16).1) / 2,
   ((planar landmarks_px 15).2 + (planar landmarks_px 16).2) / 2)

/-- The squared nose-to-ankle-midpoint pixel distance; height_px of
size_recommendation.py line 74 is its square root.  It is zero exactly
when height_px is zero, i.e. when the division of line 96 raises
ZeroDivisionError. -/
def height_sq (pose_landmarks : List Landmark) (dims : ℚ × ℚ) : ℚ :=
  let landmarks_px := pixel_landmarks pose_landmarks dims
  sqDist (planar landmarks_px 0) (ankle_midpoint landmarks_px)

/-- calculate_body_measurements (size_recommendation.py lines 35-114).
The body-keypoint index map of lines 11-20 fixes nose = 0,
left_shoulder = 5, right_shoulder = 6, left_elbow = 7, left_wrist = 9,
left_hip = 11, right_hip = 12, left_ankle = 15, right_ankle = 16.  The
code performs no input validation: indexing landmarks_px with fewer than
17 landmarks raises IndexError (the highest index accessed is 16), and a
zero nose-to-ankle pixel distance raises ZeroDivisionError at the
pixel_to_cm_ratio division of line 96; landmark lists longer than 17
are accepted, the extra entries only entering the visibility mean of
line 111.  There is no InvalidInput error anywhere in the code. -/
noncomputable def calculate_body_measurements (pose_landmarks : List Landmark)
    (image_dimensions : ℚ × ℚ) (camera_distance : ℚ) :
    Except PyError Measurements :=
  if pose_landmarks.length < 17 then .error .indexError
  else if height_sq pose_landmarks image_dimensions = 0 then
    .error .zeroDivisionError
  else
    let landmarks_px := pixel_landmarks pose_landmarks image_dimensions
    let left_shoulder := planar landmarks_px 5
    let right_shoulder := planar landmarks_px 6
    let left_elbow := planar landmarks_px 7
    let left_wrist := planar landmarks_px 9
    let left_hip := planar landmarks_px 11
    let right_hip := planar landmarks_px 12
    let height_px : ℝ :=
      Real.sqrt ((height_sq pose_landmarks image_dimensions : ℚ) : ℝ)
    let shoulder_width_px : ℝ := euclidean left_shoulder right_shoulder
    let hip_midpoint : ℚ × ℚ :=
      ((left_hip.1 + right_hip.1) / 2, (left_hip.2 + right_hip.2) / 2)
    let shoulder_midpoint : ℚ × ℚ :=
      ((left_shoulder.1 + right_shoulder.1) / 2,
       (left_shoulder.2 + right_shoulder.2) / 2)
    let torso_length_px : ℝ := euclidean shoulder_midpoint hip_midpoint
    let arm_length_px : ℝ :=
      euclidean left_shoulder left_elbow + euclidean left_elbow left_wrist
    let hip_width_px : ℝ := euclidean left_hip right_hip
    let pixel_to_cm_ratio : ℝ := 170 / height_px
    let distance_correction : ℝ := (camera_distance : ℝ) / 1.5
    let height := height_px * pixel_to_cm_ratio
    let shoulder_width := shoulder_width_px * pixel_to_cm_ratio *
      distance_correction
    let torso_length := torso_length_px * pixel_to_cm_ratio
    .ok
      { height := height
        shoulder_width := shoulder_width
        chest_circumference := shoulder_width * 2.8
        waist_circumference := hip_width_px * pixel_to_cm_ratio *
          distance_correction * 2.5
        hip_circumference := hip_width_px * pixel_to_cm_ratio *
          distance_correction * 2.8
        torso_length := torso_length
        arm_length := arm_length_px * pixel_to_cm_ratio
        inseam := (height - torso_length) * 0.45
        confidence := (pose_landmarks.map (fun l => l.visibility.getD 1)).sum /
          (pose_landmarks.length : ℚ) }

/- ------------------------------------------------------------------
Theorems
------------------------------------------------------------------ -/

/-- Claim C4: for every tolerance t greater than 0, the per-measurement
fit score equals max(0, 100 - (difference / t) * 50); it is monotonically
non-increasing in the difference, equals exactly 100 when the difference
is 0, and equals exactly 0 whenever the difference is at least 2 * t. -/
theorem measurement_score_props (t : ℚ) (ht : 0 < t) :
    (∀ d, measurement_score d t = max 0 (100 - d / t * 50)) ∧
    (∀ d₁ d₂, d₁ ≤ d₂ → measurement_score d₂ t ≤ measurement_score d₁ t) ∧
    measurement_score 0 t = 100 ∧
    (∀ d, 2 * t ≤ d → measurement_score d t = 0) := by
  refine ⟨fun d => rfl, fun d₁ d₂ h => ?_, ?_, fun d hd => ?_⟩
  · unfold measurement_score
    have h2 : d₁ / t * 50 ≤ d₂ / t * 50 := by gcongr
    exact max_le_max le_rfl (sub_le_sub_left h2 100)
  · unfold measurement_score
    rw [zero_div, zero_mul, sub_zero]
    exact max_eq_right (by norm_num)
  · unfold measurement_score
    apply max_eq_left
    have h2 : (2 : ℚ) ≤ d / t := (le_div_iff₀ ht).mpr (by linarith)
    nlinarith

/-- Witness for measurement_score_props at tolerance 5. -/
theorem measurement_score_props_witness :
    (0 : ℚ) < 5 ∧
    ((∀ d, measurement_score d 5 = max 0 (100 - d / 5 * 50)) ∧
     (∀ d₁ d₂, d₁ ≤ d₂ → measurement_score d₂ 5 ≤ measurement_score d₁ 5) ∧
     measurement_score 0 5 = 100 ∧
     (∀ d, 2 * 5 ≤ d → measurement_score d 5 = 0)) :=
  ⟨by norm_num, measurement_score_props 5 (by norm_num)⟩

/-- Claim C3, counterexample: for the body chest circumference 80 against
a chart chest of 100 with shirt tolerance 5 (a body measurement smaller
than the chart value by 20, which is more than 1.5 times the tolerance)
the fit description produced by the rule-based recommendation is
Too loose, not Too tight as the claim states, because the code passes the
absolute difference to _get_fit_description. -/
theorem fit_description_abs_counterexample :
    ((rule_based_size_recommendation
        { chest_circumference := some 80 }
        [(("M" : String), { chest := some 100 })]
        ("shirt")).fit_details.chest).map FitDetail.fit = some ("Too loose") ∧
    ("Too loose" : String) ≠ "Too tight" := by
  constructor
  · with_unfolding_all rfl
  · decide

/-- Claim C3 as amended: since the rule-based recommendation passes the
absolute difference, the description is bucketed on that nonnegative
difference (below 0.5 t Perfect fit, below t Good fit, below 1.5 t
Slightly loose, otherwise Too loose), and a body measurement smaller than
the chart value by more than 1.5 times the tolerance is described as
Too loose; the tight branches of _get_fit_description are unreachable. -/
theorem fit_description_buckets (t : ℚ) (ht : 0 < t) :
    (∀ d, 0 ≤ d →
      get_fit_description d t =
        (if d < t * 0.5 then "Perfect fit"
         else if d < t then "Good fit"
         else if d < t * 1.5 then "Slightly loose"
         else "Too loose")) ∧
    (∀ b c : ℚ, t * 1.5 < c - b →
      get_fit_description (|b - c|) t = "Too loose") := by
  constructor
  · intro d hd
    unfold get_fit_description
    split_ifs <;> first | rfl | (exfalso; linarith)
  · intro b c h
    have habs : |b - c| = c - b := by
      rw [abs_sub_comm]
      exact abs_of_pos (by linarith)
    rw [habs]
    unfold get_fit_description
    rw [if_neg (by linarith), if_neg (by linarith), if_neg (by linarith),
        if_pos (by linarith)]

/-- Witness for fit_description_buckets at tolerance 5. -/
theorem fit_description_buckets_witness :
    (0 : ℚ) < 5 ∧
    ((∀ d, 0 ≤ d →
      get_fit_description d 5 =
        (if d < 5 * 0.5 then "Perfect fit"
         else if d < 5 then "Good fit"
         else if d < 5 * 1.5 then "Slightly loose"
         else "Too loose")) ∧
     (∀ b c : ℚ, 5 * 1.5 < c - b →
      get_fit_description (|b - c|) 5 = "Too loose")) :=
  ⟨by norm_num, fit_description_buckets 5 (by norm_num)⟩

/-- Claim C7: with an empty size chart the rule-based recommendation
returns the deliberate fallback, not an error: recommended_size M,
fit_score 0, confidence 0, and empty fit_details (and no alternative
sizes). -/
theorem empty_chart_defaults (body : BodyMeasurements) (ptype : String) :
    (rule_based_size_recommendation body [] ptype).recommended_size = "M" ∧
    (rule_based_size_recommendation body [] ptype).fit_score = 0 ∧
    (rule_based_size_recommendation body [] ptype).confidence = 0 ∧
    (rule_based_size_recommendation body [] ptype).fit_details =
      ⟨none, none, none⟩ ∧
    (rule_based_size_recommendation body [] ptype).alternative_sizes = [] :=
  ⟨rfl, rfl, rfl, rfl, rfl⟩

/-- Concrete body for the C2 counterexample: chest exactly matches the
chart entry, so no problem area arises. -/
def bodyC2 : BodyMeasurements :=
  { chest_circumference := some 100 }

/-- Concrete product data for the C2 counterexample. -/
def productC2 : ProductData :=
  { measurements := [(("M" : String), { chest := some 100 })], materials := [] }

/-- Claim C2, counterexample: with the selected size present in the chart
and an empty problem-areas list, the returned comfort score is 85 (the
initial value of fit_analysis, size_recommendation.py line 269, which the
code never replaces when comfort_factors is empty), not 100 as the claim
states. -/
theorem comfort_score_default_counterexample :
    (calculate_virtual_fit bodyC2 productC2 ("M")).map
        (fun fa => (fa.problem_areas, fa.comfort_score)) = .ok ([], 85) ∧
    (85 : ℤ) ≠ 100 := by
  constructor
  · with_unfolding_all rfl
  · decide

/-- Claim C2 as amended: for every call of calculate_virtual_fit that
returns a fit analysis (the selected size is present in the chart), the
comfort score equals 85 when the problem-areas list is empty, and
otherwise equals the arithmetic mean over the problem areas of
(1 - severity * 0.3), multiplied by 100 and truncated to an integer. -/
theorem comfort_score_formula (body : BodyMeasurements) (pd : ProductData)
    (sel : String) (fa : FitAnalysis)
    (h : calculate_virtual_fit body pd sel = .ok fa) :
    fa.comfort_score =
      if fa.problem_areas = [] then 85
      else pyInt ((fa.problem_areas.map (fun a => 1 - a.severity * 0.3)).sum /
        ((fa.problem_areas.map (fun a => 1 - a.severity * 0.3)).length : ℚ) *
        100) := by
  unfold calculate_virtual_fit at h
  cases hl : lookupSize pd.measurements sel with
  | none =>
    rw [hl] at h
    simp at h
  | some e =>
    rw [hl] at h
    injection h with h
    subst h
    dsimp only
    simp only [List.isEmpty_iff, List.map_eq_nil_iff]

/-- Concrete body for the comfort_score_formula witness: chest 107
against chart chest 100 produces one too_tight problem area of severity
0.7 and a comfort score of 79. -/
def bodyC2w : BodyMeasurements :=
  { chest_circumference := some 107 }

/-- The fit analysis that calculate_virtual_fit returns on the witness
input of comfort_score_formula. -/
def faC2w : FitAnalysis :=
  { overall_fit := "good"
    problem_areas := [⟨"chest", "too_tight", 7 / 10⟩]
    stretch_areas := []
    comfort_score := 79
    movement_restriction := "minimal"
    visual_adjustments := ⟨some (7 / 100)⟩ }

/-- Witness for comfort_score_formula on a concrete call with one
problem area. -/
theorem comfort_score_formula_witness :
    calculate_virtual_fit bodyC2w productC2 ("M") = .ok faC2w ∧
    faC2w.comfort_score =
      (if faC2w.problem_areas = [] then 85
       else pyInt ((faC2w.problem_areas.map (fun a => 1 - a.severity * 0.3)).sum /
        ((faC2w.problem_areas.map (fun a => 1 - a.severity * 0.3)).length : ℚ) *
        100)) :=
  ⟨by with_unfolding_all rfl,
   comfort_score_formula bodyC2w productC2 ("M") faC2w
     (by with_unfolding_all rfl)⟩

/-- Claim C5: in calculate_virtual_fit, with diff the body chest
circumference minus the chart chest value, a too_tight chest problem
area with severity min(diff / 10, 1) is produced exactly when diff is
strictly greater than 5, and a too_loose chest problem area with severity
min(|diff| / 15, 1) is produced exactly when diff is strictly less than
-10; in all other cases (diff = 5 included) no problem area is
produced. -/
theorem chest_problem_area_iff (body : BodyMeasurements) (pd : ProductData)
    (sel : String) (e : SizeEntry) (b c : ℚ)
    (hl : lookupSize pd.measurements sel = some e)
    (hc : e.chest = some c)
    (hb : body.chest_circumference = some b) :
    (calculate_virtual_fit body pd sel).map FitAnalysis.problem_areas =
      .ok
        (if 5 < b - c then
          [⟨"chest", "too_tight", min ((b - c) / 10) 1⟩]
         else if b - c < -10 then
          [⟨"chest", "too_loose", min (|b - c| / 15) 1⟩]
         else ([] : List ProblemArea)) := by
  unfold calculate_virtual_fit
  rw [hl]
  dsimp only
  rw [hc]
  dsimp only
  rw [hb]
  simp only [Option.getD_some, gt_iff_lt]
  split_ifs <;> rfl

/-- Concrete body for the chest_problem_area_iff witness: chest 93
against chart chest 105 gives diff -12, a too_loose problem area of
severity 4/5. -/
def bodyC5 : BodyMeasurements :=
  { chest_circumference := some 93 }

/-- Concrete product data for the chest_problem_area_iff witness. -/
def productC5 : ProductData :=
  { measurements := [(("L" : String), { chest := some 105 })], materials := [] }

/-- Witness for chest_problem_area_iff on a concrete too_loose call. -/
theorem chest_problem_area_iff_witness :
    lookupSize productC5.measurements ("L") = some { chest := some 105 } ∧
    (({ chest := some 105 } : SizeEntry)).chest = some 105 ∧
    bodyC5.chest_circumference = some 93 ∧
    (calculate_virtual_fit bodyC5 productC5 ("L")).map FitAnalysis.problem_areas =
      .ok
        (if 5 < (93 : ℚ) - 105 then
          [⟨"chest", "too_tight", min (((93 : ℚ) - 105) / 10) 1⟩]
         else if (93 : ℚ) - 105 < -10 then
          [⟨"chest", "too_loose", min (|(93 : ℚ) - 105| / 15) 1⟩]
         else ([] : List ProblemArea)) :=
  ⟨rfl, rfl, rfl,
   chest_problem_area_iff bodyC5 productC5 ("L") { chest := some 105 } 93 105
     rfl rfl rfl⟩

/-- Claim C6: for every size chart with distinct size labels (a Python
dict), the alternative_sizes list never contains the recommended size,
has length at most 2, contains only entries with overall score strictly
greater than 70, and is ordered by descending score. -/
theorem alternative_sizes_sound (body : BodyMeasurements)
    (chart : List (String × SizeEntry)) (ptype : String)
    (hnd : (chart.map Prod.fst).Nodup) :
    (∀ a ∈ (rule_based_size_recommendation body chart ptype).alternative_sizes,
      a.size ≠ (rule_based_size_recommendation body chart ptype).recommended_size ∧
      70 < a.score) ∧
    (rule_based_size_recommendation body chart ptype).alternative_sizes.length ≤ 2 ∧
    (rule_based_size_recommendation body chart ptype).alternative_sizes.Pairwise
      (fun a b => b.score ≤ a.score) := by
  set recs := chart.map (fun p => score_size body (tolerances ptype) p.1 p.2)
    with hrecs
  have hperm : List.Perm (rank_recommendations recs) recs :=
    List.perm_insertionSort recGE recs
  have hsorted : (rank_recommendations recs).Pairwise recGE :=
    List.sorted_insertionSort recGE recs
  have hsizes : recs.map Recommendation.size = chart.map Prod.fst := by
    rw [hrecs, List.map_map]
    rfl
  have hnd2 : ((rank_recommendations recs).map Recommendation.size).Nodup := by
    have hp2 := hperm.map Recommendation.size
    rw [hsizes] at hp2
    exact hp2.nodup_iff.mpr hnd
  cases hS : rank_recommendations recs with
  | nil =>
    have hres : rule_based_size_recommendation body chart ptype =
        { recommended_size := "M", fit_score := 0, confidence := 0,
          fit_details := ⟨none, none, none⟩, alternative_sizes := [],
          measurement_quality := assess_measurement_quality body } := by
      unfold rule_based_size_recommendation
      dsimp only
      rw [← hrecs, hS]
    rw [hres]
    simp
  | cons best rest =>
    have hres : rule_based_size_recommendation body chart ptype =
        { recommended_size := best.size, fit_score := best.overall_score,
          confidence := best.confidence, fit_details := best.fit_scores,
          alternative_sizes :=
            ((rest.filter (fun r => 70 < r.overall_score)).take 2).map
              (fun r => ⟨r.size, r.overall_score⟩),
          measurement_quality := assess_measurement_quality body } := by
      unfold rule_based_size_recommendation
      dsimp only
      rw [← hrecs, hS]
    rw [hres]
    rw [hS] at hnd2 hsorted
    simp only [List.map_cons, List.nodup_cons] at hnd2
    refine ⟨?_, ?_, ?_⟩
    · intro a ha
      simp only [List.mem_map] at ha
      obtain ⟨r, hr, rfl⟩ := ha
      dsimp only
      have hrRest : r ∈ rest :=
        List.mem_of_mem_filter (List.mem_of_mem_take hr)
      constructor
      · intro hEq
        exact hnd2.1 (hEq ▸ List.mem_map_of_mem Recommendation.size hrRest)
      · have hmem := List.mem_filter.mp (List.mem_of_mem_take hr)
        exact of_decide_eq_true hmem.2
    · simp only [List.length_map]
      exact le_trans (List.length_take_le 2 _) le_rfl
    · have h1 : rest.Pairwise recGE := hsorted.of_cons
      have h2 : ((rest.filter (fun r => 70 < r.overall_score)).take 2).Pairwise
          recGE :=
        List.Pairwise.sublist
          ((List.take_sublist _ _).trans (List.filter_sublist _)) h1
      rw [List.pairwise_map]
      exact h2

/-- Concrete body for the alternative_sizes_sound witness. -/
def bodyC6 : BodyMeasurements :=
  { chest_circumference := some 100, confidence := some 0.95 }

/-- Concrete chart for the alternative_sizes_sound witness: M scores
100, L 80, S 60, so L is the single alternative. -/
def chartC6 : List (String × SizeEntry) :=
  [(("S" : String), { chest := some 104 }),
   (("M" : String), { chest := some 100 }),
   (("L" : String), { chest := some 102 })]

/-- Witness for alternative_sizes_sound on a concrete three-size
chart. -/
theorem alternative_sizes_sound_witness :
    (chartC6.map Prod.fst).Nodup ∧
    ((∀ a ∈ (rule_based_size_recommendation bodyC6 chartC6 ("shirt")).alternative_sizes,
      a.size ≠ (rule_based_size_recommendation bodyC6 chartC6 ("shirt")).recommended_size ∧
      70 < a.score) ∧
    (rule_based_size_recommendation bodyC6 chartC6 ("shirt")).alternative_sizes.length ≤ 2 ∧
    (rule_based_size_recommendation bodyC6 chartC6 ("shirt")).alternative_sizes.Pairwise
      (fun a b => b.score ≤ a.score)) :=
  ⟨by decide, alternative_sizes_sound bodyC6 chartC6 ("shirt") (by decide)⟩

/-- Claim C8: room analysis on an empty list of detected planes yields
floor area 0, no available spaces and no walls, and furniture placement
on that analysis returns a normal result with furniture_fits false, the
no-suitable-space warning, and room compatibility 0. -/
theorem empty_planes_analysis_and_placement (depth_map : List ℚ)
    (fd : FurnitureDimensions) (ftype : String) :
    (analyze_room_space depth_map () []).floor_area = 0 ∧
    (analyze_room_space depth_map () []).available_spaces = [] ∧
    (analyze_room_space depth_map () []).walls = [] ∧
    calculate_furniture_placement (analyze_room_space depth_map () []) fd ftype =
      .ok { recommended_placements := [], furniture_fits := false,
            warnings := ["No suitable space found for this furniture"],
            room_compatibility_score := 0 } :=
  ⟨rfl, rfl, rfl, rfl⟩

/-- Helper for claim C10: on a room analysis with the mock available
space and zero floor area, furniture placement always raises
ZeroDivisionError inside _calculate_room_compatibility. -/
lemma placement_zero_floor (ra : RoomAnalysis) (fd : FurnitureDimensions)
    (ft : String) (hs : ra.available_spaces = [mockSpace])
    (hf : ra.floor_area = 0) :
    calculate_furniture_placement ra fd ft = .error PyError.zeroDivisionError := by
  have hcompat : ∀ fs : FurnitureSize,
      calculate_room_compatibility ra fs ft = .error PyError.zeroDivisionError := by
    intro fs
    unfold calculate_room_compatibility
    rw [hs, hf]
    norm_num
  have hbuild : ∀ fs : FurnitureSize,
      ∃ l, build_placements ra fs ft [mockSpace] = .ok l := by
    intro fs
    by_cases hfit : can_fit_furniture mockSpace fs
    · cases hc : calculate_placement_confidence mockSpace fs ft with
      | error e =>
        exfalso
        unfold calculate_placement_confidence at hc
        norm_num [mockSpace] at hc
        exact Except.noConfusion hc
      | ok c =>
        refine ⟨[{ position := mockSpace.center,
                   rotation := calculate_optimal_rotation mockSpace fs ft
                     ra.walls,
                   scale := 1, confidence := c,
                   clearance := calculate_clearance mockSpace fs,
                   lighting_quality := assess_position_lighting mockSpace.center
                     ra.lighting }], ?_⟩
        unfold build_placements
        rw [if_pos hfit, hc]
        rfl
    · refine ⟨[], ?_⟩
      unfold build_placements
      rw [if_neg hfit]
      rfl
  unfold calculate_furniture_placement
  dsimp only
  rw [hs]
  obtain ⟨l, hl⟩ := hbuild
    { width := fd.width.getD 36 * 0.0254, height := fd.height.getD 30 * 0.0254,
      depth := fd.depth.getD 36 * 0.0254 }
  rw [hl]
  dsimp only
  rw [hcompat]

/-- Claim C10: when the detected planes contain a floor plane whose
boundary is absent or encloses zero area, the analysis has a non-empty
available_spaces list but floor area 0, and calculate_furniture_placement
divides the furniture footprint by that zero floor area, raising
ZeroDivisionError instead of returning a placement result. -/
theorem room_compatibility_div_by_zero (depth_map : List ℚ)
    (planes : List Plane) (fp : Plane) (fd : FurnitureDimensions)
    (ftype : String)
    (h1 : find_floor_plane planes = some fp)
    (h2 : calculate_floor_area fp = 0) :
    (analyze_room_space depth_map () planes).floor_area = 0 ∧
    (analyze_room_space depth_map () planes).available_spaces ≠ [] ∧
    calculate_furniture_placement (analyze_room_space depth_map () planes) fd
      ftype = .error PyError.zeroDivisionError := by
  have hra1 : (analyze_room_space depth_map () planes).floor_area = 0 := by
    simp [analyze_room_space, h1, h2]
  have hra2 : (analyze_room_space depth_map () planes).available_spaces =
      [mockSpace] := by
    simp [analyze_room_space, h1, find_available_spaces]
  refine ⟨hra1, ?_, placement_zero_floor _ _ _ hra2 hra1⟩
  rw [hra2]
  simp

/-- Concrete floor plane with no boundary for the
room_compatibility_div_by_zero witness. -/
def floorPlaneW : Plane :=
  { normal := (0, 1, 0), boundary := none }

/-- Witness for room_compatibility_div_by_zero: one boundary-less floor
plane, empty depth map, default furniture dimensions. -/
theorem room_compatibility_div_by_zero_witness :
    find_floor_plane [floorPlaneW] = some floorPlaneW ∧
    calculate_floor_area floorPlaneW = 0 ∧
    ((analyze_room_space [] () [floorPlaneW]).floor_area = 0 ∧
     (analyze_room_space [] () [floorPlaneW]).available_spaces ≠ [] ∧
     calculate_furniture_placement (analyze_room_space [] () [floorPlaneW])
       {} ("table") = .error PyError.zeroDivisionError) :=
  ⟨by with_unfolding_all rfl, rfl,
   room_compatibility_div_by_zero [] [floorPlaneW] floorPlaneW {} ("table")
     (by with_unfolding_all rfl) rfl⟩

lemma sqDist_nonneg (p q : ℚ × ℚ) : 0 ≤ sqDist p q := by
  unfold sqDist
  positivity

lemma sqrt_cancel_170 (q : ℚ) (h0 : 0 ≤ q) (h : q ≠ 0) :
    Real.sqrt (q : ℝ) * (170 / Real.sqrt (q : ℝ)) = 170 := by
  have hpos : (0 : ℚ) < q := lt_of_le_of_ne h0 (Ne.symm h)
  have hne : Real.sqrt (q : ℝ) ≠ 0 := by
    rw [Real.sqrt_ne_zero']
    exact_mod_cast hpos
  rw [mul_comm]
  exact div_mul_cancel₀ 170 hne

/-- Claim C9: whenever calculate_body_measurements returns (the
nose-to-ankle pixel distance is nonzero), the returned height measurement
is exactly 170 cm regardless of the landmarks, image dimensions and
camera distance, because the pixel-to-cm ratio is 170 divided by that
same pixel distance. -/
theorem height_always_170 (pose_landmarks : List Landmark)
    (image_dimensions : ℚ × ℚ) (camera_distance : ℚ) :
    match calculate_body_measurements pose_landmarks image_dimensions
        camera_distance with
    | .ok m => m.height = (170 : ℝ)
    | .error _ => True := by
  unfold calculate_body_measurements
  split
  · rename_i m heq
    split at heq
    · exact absurd heq (by simp)
    · split at heq
      · exact absurd heq (by simp)
      · rename_i h2
        dsimp only at heq
        injection heq with heq
        subst heq
        dsimp only
        exact sqrt_cancel_170 _ (sqDist_nonneg _ _) h2
  · trivial

/-- A generic landmark at the image center, used by the C1 inputs. -/
def lmO : Landmark := { x := 1/2, y := 1/2 }

/-- An 18-landmark input (length different from 17) whose nose and ankle
positions are distinct, so the code runs to completion. -/
def lms18 : List Landmark :=
  [{ x := 0, y := 0 }, lmO, lmO, lmO, lmO, lmO, lmO, lmO, lmO, lmO, lmO,
   lmO, lmO, lmO, lmO, { x := 0, y := 1 }, { x := 0, y := 1 }, lmO]

/-- A 17-landmark input with every landmark at the same point, so the
nose-to-ankle pixel height is zero. -/
def lms17flat : List Landmark := List.replicate 17 lmO

/-- Claim C1 (code bug): the code performs no input validation.  On an
18-landmark input (length different from 17) it returns a measurements
mapping instead of failing with InvalidInput, and on a degenerate
17-landmark input with zero nose-to-ankle pixel height it raises a bare
ZeroDivisionError rather than an InvalidInput error. -/
theorem calculate_body_measurements_no_input_validation :
    (calculate_body_measurements lms18 (100, 100) 1.5).isOk = true ∧
    calculate_body_measurements lms17flat (100, 100) 1.5 =
      .error PyError.zeroDivisionError := by
  constructor
  · have h1 : ¬(lms18.length < 17) := by decide
    have h2 : ¬(height_sq lms18 (100, 100) = 0) := by with_unfolding_all decide
    unfold calculate_body_measurements
    rw [if_neg h1, if_neg h2]
    rfl
  · have h1 : ¬(lms17flat.length < 17) := by decide
    have h2 : height_sq lms17flat (100, 100) = 0 := by with_unfolding_all decide
    unfold calculate_body_measurements
    rw [if_neg h1, if_pos h2]
